import Mathlib

/-!
Shallow embedding of `src/robot.py` (EBoima/fire-alarm-robot): a finite-state
fire-seeking robot controller.  Python methods on the `Robot` class become
Lean functions threading an explicit `Robot` record (the mutable object state:
the `current_state` field plus one read cursor per sensor) and emitting a
trace of actuator commands.  Sensor hardware is modelled as an `Env` of
read streams: each physical read consumes the next element of its stream,
matching "sampled fresh on each policy invocation".  The potentially
unbounded `while` loop of `approach_flame` takes explicit fuel and returns
`none` when the fuel is exhausted before the loop exits, so `some` results
correspond exactly to completed (terminating) calls.
-/

namespace FireRobot

/-- Colors as used by the pybricks color sensor (only the identity of the
values matters to the controller; `green` is the success light color). -/
inductive Color where
  | red
  | green
  | blue
  | yellow
  | black
  | white
  | noColor
deriving DecidableEq, Repr

/-- The five state constants of `robot.py` (`WANDER = 1` ... `COMPLETE = 5`);
they are used only as tags compared for equality, so an enumeration is a
faithful rendering. -/
inductive RobotState where
  | WANDER
  | WALL_FOLLOWING
  | FIRE_DETECTION
  | EXTINGUISH
  | COMPLETE
deriving DecidableEq, Repr

/-- Modelled from the spec: the `constants` module imported by `robot.py` is
not among the source files, so the named configuration constants (distance
thresholds, step sizes, turn angles, fan speed/duration, alarm tone, goal
color) are kept abstract, per spec section 6 ("a fixed set of named numeric
constants ... immutable"). Numeric values are rationals, standing in for the
exact-arithmetic reading of the Python floats. -/
structure Consts where
  WALL_FOLLOW_MIN_DISTANCE : ℚ
  FLAME_DETECTION_THRESHOLD : ℚ
  GOAL_COLOR : Color
  WANDER_DISTANCE : ℚ
  WALL_FOLLOW_STEP : ℚ
  WALL_FOLLOW_ADJUST_ANGLE : ℚ
  APPROACH_FLAME_STEP_DISTANCE : ℚ
  FAN_SPEED : ℚ
  FAN_RUN_TIME : ℚ
  ALARM_FREQUENCY : ℚ
  ALARM_DURATION : ℚ

/-- Sensor hardware as read streams: the `n`-th call of each device method
returns the `n`-th element of its stream. -/
structure Env where
  touched : Nat → Bool
  distance : Nat → ℚ
  ambient : Nat → ℚ
  color : Nat → Color

/-- Actuator (and indicator) commands issued by the controller, in order. -/
inductive Command where
  | stop
  | straight (distance : ℚ)
  | turn (angle : ℚ)
  | fanRun (speed : ℚ) (time : ℚ)
  | lightOn (c : Color)
  | beep (frequency : ℚ) (duration : ℚ)
deriving DecidableEq, Repr

/-- The mutable state of a `Robot` object: `current_state` plus the read
cursor of each sensor stream. -/
structure Robot where
  current_state : RobotState
  touchIdx : Nat
  distIdx : Nat
  ambientIdx : Nat
  colorIdx : Nat
deriving DecidableEq, Repr

/-- `Robot.__init__`: initial state is `WANDER`, no sensor read yet. -/
def initRobot : Robot :=
  { current_state := RobotState.WANDER
    touchIdx := 0
    distIdx := 0
    ambientIdx := 0
    colorIdx := 0 }

/-- One call of `self.touch_sensor.touched()`. -/
def touchRead (env : Env) (r : Robot) : Robot × Bool :=
  ({ r with touchIdx := r.touchIdx + 1 }, env.touched r.touchIdx)

/-- One call of `self.side_sensor.distance()`. -/
def distanceRead (env : Env) (r : Robot) : Robot × ℚ :=
  ({ r with distIdx := r.distIdx + 1 }, env.distance r.distIdx)

/-- One call of `self.color_distance_sensor.ambient()`. -/
def ambientRead (env : Env) (r : Robot) : Robot × ℚ :=
  ({ r with ambientIdx := r.ambientIdx + 1 }, env.ambient r.ambientIdx)

/-- One call of `self.color_distance_sensor.color()`. -/
def colorRead (env : Env) (r : Robot) : Robot × Color :=
  ({ r with colorIdx := r.colorIdx + 1 }, env.color r.colorIdx)

/-- `Robot.detect_obstacle`: read the touch sensor; on contact issue
`drive_base.stop()` and return `true`, otherwise `false`. -/
def detect_obstacle (env : Env) (r : Robot) : Robot × List Command × Bool :=
  let (r1, t) := touchRead env r
  if t then (r1, [Command.stop], true) else (r1, [], false)

/-- `Robot.detect_wall_on_right`: `side_sensor.distance() <
WALL_FOLLOW_MIN_DISTANCE`. -/
def detect_wall_on_right (c : Consts) (env : Env) (r : Robot) :
    Robot × List Command × Bool :=
  let (r1, d) := distanceRead env r
  (r1, [], decide (d < c.WALL_FOLLOW_MIN_DISTANCE))

/-- `Robot.detect_flame`: `color_distance_sensor.ambient() >
FLAME_DETECTION_THRESHOLD`. -/
def detect_flame (c : Consts) (env : Env) (r : Robot) :
    Robot × List Command × Bool :=
  let (r1, a) := ambientRead env r
  (r1, [], decide (c.FLAME_DETECTION_THRESHOLD < a))

/-- `Robot.detect_goal`: `color_distance_sensor.color() == GOAL_COLOR`. -/
def detect_goal (c : Consts) (env : Env) (r : Robot) :
    Robot × List Command × Bool :=
  let (r1, col) := colorRead env r
  (r1, [], decide (col = c.GOAL_COLOR))

/-- The loop body structure of `Robot.initial_scan_for_flame`, parametrised
by the number of remaining iterations of `for _ in range(8)`: check
`detect_flame()`; if it fires return `True` at once, else `turn(45)` and
continue. -/
def scanLoop (c : Consts) (env : Env) : Nat → Robot → Robot × List Command × Bool
  | 0, r => (r, [], false)
  | n + 1, r =>
    let (r1, cmds1, f) := detect_flame c env r
    if f then (r1, cmds1, true)
    else
      let (r2, cmds2, res) := scanLoop c env n r1
      (r2, cmds1 ++ [Command.turn 45] ++ cmds2, res)

/-- `Robot.initial_scan_for_flame`: eight 45-degree scan increments. -/
def initial_scan_for_flame (c : Consts) (env : Env) (r : Robot) :
    Robot × List Command × Bool :=
  scanLoop c env 8 r

/-- `Robot.extinguish`: run the fan motor at `FAN_SPEED` for `FAN_RUN_TIME`,
set `current_state = COMPLETE`, light the hub green. -/
def extinguish (c : Consts) (r : Robot) : Robot × List Command :=
  ({ r with current_state := RobotState.COMPLETE },
   [Command.fanRun c.FAN_SPEED c.FAN_RUN_TIME, Command.lightOn Color.green])

/-- `Robot.transition_to`: assign `current_state = new_state`. -/
def transition_to (new_state : RobotState) (r : Robot) : Robot :=
  { r with current_state := new_state }

/-- `Robot.raise_alarm`: beep at the configured frequency and duration. -/
def raise_alarm (c : Consts) (r : Robot) : Robot × List Command :=
  (r, [Command.beep c.ALARM_FREQUENCY c.ALARM_DURATION])

/-- The `while not self.detect_goal():` loop of `Robot.approach_flame`, with
fuel bounding the number of body executions: on goal exit the loop and call
`extinguish()`; on touch back off `WALL_FOLLOW_STEP` and `turn(-90)`;
otherwise advance `APPROACH_FLAME_STEP_DISTANCE`.  `none` means the fuel ran
out before the loop exited. -/
def approachLoop (c : Consts) (env : Env) :
    Nat → Robot → Option (Robot × List Command)
  | fuel, r =>
    let (r1, cmds1, g) := detect_goal c env r
    if g then
      let (r2, cmds2) := extinguish c r1
      some (r2, cmds1 ++ cmds2)
    else
      match fuel with
      | 0 => none
      | fuel' + 1 =>
        let (r2, t) := touchRead env r1
        let (r3, cmds2) :=
          if t then
            (r2, [Command.straight (-c.WALL_FOLLOW_STEP), Command.turn (-90)])
          else
            (r2, [Command.straight c.APPROACH_FLAME_STEP_DISTANCE])
        match approachLoop c env fuel' r3 with
        | none => none
        | some (r4, cmds3) => some (r4, cmds1 ++ cmds2 ++ cmds3)

/-- `Robot.approach_flame`: loop toward the flame until the goal tile is
detected, then extinguish. -/
def approach_flame (c : Consts) (env : Env) (fuel : Nat) (r : Robot) :
    Option (Robot × List Command) :=
  approachLoop c env fuel r

/-- `Robot.wander`: on obstacle back off `WALL_FOLLOW_STEP`, `turn(-90)` and
transition to `WALL_FOLLOWING`; otherwise advance `WANDER_DISTANCE`. -/
def wander (c : Consts) (env : Env) (r : Robot) : Robot × List Command :=
  let (r1, cmds1, obs) := detect_obstacle env r
  if obs then
    (transition_to RobotState.WALL_FOLLOWING r1,
     cmds1 ++ [Command.straight (-c.WALL_FOLLOW_STEP), Command.turn (-90)])
  else
    (r1, cmds1 ++ [Command.straight c.WANDER_DISTANCE])

/-- The proportional adjustment computed in the final branch of
`Robot.wall_following`:
`(WALL_FOLLOW_MIN_DISTANCE - distance) * WALL_FOLLOW_ADJUST_ANGLE`. -/
def angle_adjustment (c : Consts) (d : ℚ) : ℚ :=
  (c.WALL_FOLLOW_MIN_DISTANCE - d) * c.WALL_FOLLOW_ADJUST_ANGLE

/-- `Robot.wall_following`: obstacle ⇒ back off and `turn(-90)`; no wall on
the right ⇒ `turn(-90)`; otherwise turn by the proportional adjustment of a
fresh distance reading and advance `WALL_FOLLOW_STEP`. -/
def wall_following (c : Consts) (env : Env) (r : Robot) : Robot × List Command :=
  let (r1, cmds1, obs) := detect_obstacle env r
  if obs then
    (r1, cmds1 ++ [Command.straight (-c.WALL_FOLLOW_STEP), Command.turn (-90)])
  else
    let (r2, cmds2, wall) := detect_wall_on_right c env r1
    if !wall then
      (r2, cmds1 ++ cmds2 ++ [Command.turn (-90)])
    else
      let (r3, d) := distanceRead env r2
      (r3, cmds1 ++ cmds2 ++
        [Command.turn (angle_adjustment c d), Command.straight c.WALL_FOLLOW_STEP])

/-- `Robot.update`: the per-tick dispatch on `current_state`.  A state value
matching no branch (only `COMPLETE`, given the enumeration) falls through the
`if/elif` chain and does nothing.  The result is `none` exactly when the
`approach_flame` loop does not finish within its fuel. -/
def update (c : Consts) (env : Env) (fuel : Nat) (r : Robot) :
    Option (Robot × List Command) :=
  if r.current_state = RobotState.WANDER then
    let (r1, cmds1, found) := initial_scan_for_flame c env r
    if !found then
      let (r2, cmds2) := wander c env r1
      some (r2, cmds1 ++ cmds2)
    else
      some (transition_to RobotState.FIRE_DETECTION r1, cmds1)
  else if r.current_state = RobotState.WALL_FOLLOWING then
    let (r1, cmds1) := wall_following c env r
    let (r2, cmds2, g) := detect_goal c env r1
    if g then
      some (transition_to RobotState.FIRE_DETECTION r2, cmds1 ++ cmds2)
    else
      some (r2, cmds1 ++ cmds2)
  else if r.current_state = RobotState.FIRE_DETECTION then
    match approach_flame c env fuel r with
    | none => none
    | some (r1, cmds1) =>
      some (transition_to RobotState.EXTINGUISH r1, cmds1)
  else if r.current_state = RobotState.EXTINGUISH then
    let (r1, cmds1) := extinguish c r
    some (transition_to RobotState.WANDER r1, cmds1)
  else
    some (r, [])

/-- Iterated `update` steps sharing one environment (the sensor cursors of
`Robot` persist across ticks, as they do on the Python object), one fuel per
step. -/
def runSteps (c : Consts) (env : Env) : List Nat → Robot → Option Robot
  | [], r => some r
  | fuel :: fuels, r =>
    match update c env fuel r with
    | none => none
    | some (r1, _) => runSteps c env fuels r1

/-! Statement helpers: predicates used to phrase the verified properties. -/

/-- Whether the `i`-th ambient reading crosses the flame threshold, i.e. the
boolean `detect_flame` would compute at ambient cursor `i`. -/
def flameAtB (c : Consts) (env : Env) (i : Nat) : Bool :=
  decide (c.FLAME_DETECTION_THRESHOLD < env.ambient i)

/-- Index (relative to `start`) of the first of the next `n` ambient readings
that crosses the flame threshold, if any. -/
def firstFlameIn (c : Consts) (env : Env) (start : Nat) : Nat → Option Nat
  | 0 => none
  | n + 1 =>
    if flameAtB c env start then some 0
    else (firstFlameIn c env (start + 1) n).map (fun j => j + 1)

/-- Whether a command is a straight drive. -/
def isStraightCmd : Command → Bool
  | Command.straight _ => true
  | _ => false

/-- Whether a command is a turn. -/
def isTurnCmd : Command → Bool
  | Command.turn _ => true
  | _ => false

/-- The pairs of states that one completed `update` step can connect, as read
off the dispatch code: WANDER keeps wandering, enters WALL_FOLLOWING on
obstacle contact, or enters FIRE_DETECTION on a successful scan;
WALL_FOLLOWING re-enters itself or enters FIRE_DETECTION on goal detection;
FIRE_DETECTION always ends in EXTINGUISH; EXTINGUISH always ends in WANDER;
COMPLETE matches no branch and stays put. -/
def allowedStep : RobotState → RobotState → Bool
  | RobotState.WANDER, RobotState.WANDER => true
  | RobotState.WANDER, RobotState.WALL_FOLLOWING => true
  | RobotState.WANDER, RobotState.FIRE_DETECTION => true
  | RobotState.WALL_FOLLOWING, RobotState.WALL_FOLLOWING => true
  | RobotState.WALL_FOLLOWING, RobotState.FIRE_DETECTION => true
  | RobotState.FIRE_DETECTION, RobotState.EXTINGUISH => true
  | RobotState.EXTINGUISH, RobotState.WANDER => true
  | RobotState.COMPLETE, RobotState.COMPLETE => true
  | _, _ => false

/-! Concrete fixtures used to instantiate the verified properties. -/

/-- A concrete configuration (the real `constants.py` is not in the sources;
any values exercise the control logic). -/
def constsW : Consts :=
  { WALL_FOLLOW_MIN_DISTANCE := 100
    FLAME_DETECTION_THRESHOLD := 50
    GOAL_COLOR := Color.red
    WANDER_DISTANCE := 150
    WALL_FOLLOW_STEP := 50
    WALL_FOLLOW_ADJUST_ANGLE := 2
    APPROACH_FLAME_STEP_DISTANCE := 60
    FAN_SPEED := 1000
    FAN_RUN_TIME := 3000
    ALARM_FREQUENCY := 440
    ALARM_DURATION := 1000 }

/-- An environment with nothing to sense: no touch, far wall, dark, no goal
tile. -/
def envQuiet : Env :=
  { touched := fun _ => false
    distance := fun _ => 200
    ambient := fun _ => 0
    color := fun _ => Color.blue }

/-- An environment whose touch sensor always reports contact. -/
def envTouch : Env :=
  { envQuiet with touched := fun _ => true }

/-- An environment with a wall 40 mm to the right and no contact. -/
def envWall : Env :=
  { envQuiet with distance := fun _ => 40 }

/-- An environment in which only the third ambient reading shows a flame. -/
def envFlame3 : Env :=
  { envQuiet with ambient := fun i => if i = 2 then 100 else 0 }

/-- An environment sitting on the (red) goal tile. -/
def envGoal : Env :=
  { envQuiet with color := fun _ => Color.red }

/-- A robot object whose current state is COMPLETE. -/
def robotComplete : Robot :=
  { initRobot with current_state := RobotState.COMPLETE }

/-! Claim theorems. -/

/-- Claim C1: a dispatch step starting in EXTINGUISH runs `extinguish()` —
the fan runs at FAN_SPEED for FAN_RUN_TIME, the state is set to COMPLETE —
and the step ends with `transition_to(WANDER)`, so the next state is
WANDER. -/
theorem update_extinguish_step (c : Consts) (env : Env) (fuel : Nat) (r : Robot) :
    update c env fuel { r with current_state := RobotState.EXTINGUISH } =
      some (transition_to RobotState.WANDER
              (extinguish c { r with current_state := RobotState.EXTINGUISH }).1,
            (extinguish c { r with current_state := RobotState.EXTINGUISH }).2) ∧
    (extinguish c { r with current_state := RobotState.EXTINGUISH }).1.current_state
      = RobotState.COMPLETE ∧
    (extinguish c { r with current_state := RobotState.EXTINGUISH }).2
      = [Command.fanRun c.FAN_SPEED c.FAN_RUN_TIME, Command.lightOn Color.green] ∧
    (transition_to RobotState.WANDER
        (extinguish c { r with current_state := RobotState.EXTINGUISH }).1).current_state
      = RobotState.WANDER := by
  refine ⟨?_, rfl, rfl, rfl⟩
  simp [update, extinguish, transition_to]

/-- Claim C10: with current state COMPLETE, `update()` matches no dispatch
branch: it returns the robot object unchanged (so no sensor cursor moved,
i.e. no sensor read happened, and `current_state` is untouched) and issues
no command — a silent no-op. -/
theorem update_complete_noop (c : Consts) (env : Env) (fuel : Nat) (r : Robot) :
    update c env fuel { r with current_state := RobotState.COMPLETE } =
      some ({ r with current_state := RobotState.COMPLETE }, []) := by
  simp [update]

/-- Claim C8: the four detection predicates leave `current_state` unchanged
for every sensor reading; the state is written only by the explicit
`transition_to` operation, with the stated exception that `extinguish`
marks COMPLETE. -/
theorem detect_predicates_frame (c : Consts) (env : Env) (r : Robot) (s : RobotState) :
    (detect_obstacle env r).1.current_state = r.current_state ∧
    (detect_wall_on_right c env r).1.current_state = r.current_state ∧
    (detect_flame c env r).1.current_state = r.current_state ∧
    (detect_goal c env r).1.current_state = r.current_state ∧
    (transition_to s r).current_state = s ∧
    (extinguish c r).1.current_state = RobotState.COMPLETE := by
  refine ⟨?_, rfl, rfl, rfl, rfl, rfl⟩
  cases h : env.touched r.touchIdx <;>
    simp [detect_obstacle, touchRead, h]

/-- Claim C4: `wander()` on touch contact issues `stop`, then a straight
drive of exactly `-WALL_FOLLOW_STEP`, then a turn of exactly −90°, and moves
the state to WALL_FOLLOWING; with no contact it advances `WANDER_DISTANCE`
straight and leaves the state unchanged. -/
theorem wander_spec (c : Consts) (env : Env) (r : Robot) :
    wander c env r =
      if env.touched r.touchIdx then
        ({ r with touchIdx := r.touchIdx + 1,
                  current_state := RobotState.WALL_FOLLOWING },
         [Command.stop, Command.straight (-c.WALL_FOLLOW_STEP), Command.turn (-90)])
      else
        ({ r with touchIdx := r.touchIdx + 1 },
         [Command.straight c.WANDER_DISTANCE]) := by
  cases h : env.touched r.touchIdx <;>
    simp [wander, detect_obstacle, touchRead, transition_to, h]

/-- Claim C5: in `wall_following`'s proportional branch (no contact, wall on
the right), the issued turn angle is exactly
`(WALL_FOLLOW_MIN_DISTANCE - distance) * WALL_FOLLOW_ADJUST_ANGLE` applied
to the fresh distance reading, followed by a `WALL_FOLLOW_STEP` straight
advance; and (with the configured gain positive, per the spec) the
adjustment is strictly antitone in the reading: closer readings turn
strictly more. -/
theorem wall_following_proportional (c : Consts) (env : Env) (r : Robot) (d1 d2 : ℚ)
    (hT : env.touched r.touchIdx = false)
    (hW : env.distance r.distIdx < c.WALL_FOLLOW_MIN_DISTANCE)
    (hg : 0 < c.WALL_FOLLOW_ADJUST_ANGLE)
    (h12 : d1 < d2)
    (h1 : d1 < c.WALL_FOLLOW_MIN_DISTANCE)
    (h2 : d2 < c.WALL_FOLLOW_MIN_DISTANCE) :
    (wall_following c env r).2 =
      [Command.turn (angle_adjustment c (env.distance (r.distIdx + 1))),
       Command.straight c.WALL_FOLLOW_STEP] ∧
    angle_adjustment c (env.distance (r.distIdx + 1)) =
      (c.WALL_FOLLOW_MIN_DISTANCE - env.distance (r.distIdx + 1)) *
        c.WALL_FOLLOW_ADJUST_ANGLE ∧
    angle_adjustment c d2 < angle_adjustment c d1 := by
  refine ⟨?_, rfl, ?_⟩
  · simp [wall_following, detect_obstacle, detect_wall_on_right, touchRead,
      distanceRead, hT, hW]
  · have h21 : c.WALL_FOLLOW_MIN_DISTANCE - d2 < c.WALL_FOLLOW_MIN_DISTANCE - d1 :=
      sub_lt_sub_left h12 _
    exact mul_lt_mul_of_pos_right h21 hg

/-- Claim C6: when `detect_goal()` is true on the first check inside
`approach_flame`, the loop body never runs: the call returns after exactly
the `extinguish()` actions (fan, success light), so no straight-drive and no
turn command is issued before `extinguish()` runs. -/
theorem approach_flame_goal_first (c : Consts) (env : Env) (fuel : Nat) (r : Robot)
    (h : env.color r.colorIdx = c.GOAL_COLOR) :
    approach_flame c env fuel r =
      some ({ r with colorIdx := r.colorIdx + 1,
                     current_state := RobotState.COMPLETE },
            [Command.fanRun c.FAN_SPEED c.FAN_RUN_TIME, Command.lightOn Color.green]) ∧
    List.all [Command.fanRun c.FAN_SPEED c.FAN_RUN_TIME, Command.lightOn Color.green]
      (fun cmd => !(isStraightCmd cmd || isTurnCmd cmd)) = true := by
  refine ⟨?_, rfl⟩
  cases fuel <;>
    simp [approach_flame, approachLoop, detect_goal, colorRead, extinguish, h]

/-- Unfolding of `scanLoop`: the loop turns 45° once per ambient reading
below the threshold, stopping (with `true`, consuming one more reading) at
the first reading above it, or exhausting its `n` iterations (with
`false`). -/
theorem scanLoop_eq (c : Consts) (env : Env) :
    ∀ (n : Nat) (r : Robot), scanLoop c env n r =
      match firstFlameIn c env r.ambientIdx n with
      | some k =>
        ({ r with ambientIdx := r.ambientIdx + (k + 1) },
         List.replicate k (Command.turn 45), true)
      | none =>
        ({ r with ambientIdx := r.ambientIdx + n },
         List.replicate n (Command.turn 45), false) := by
  intro n
  induction n with
  | zero => intro r; simp [scanLoop, firstFlameIn]
  | succ n ih =>
    intro r
    rw [scanLoop]
    cases hf : flameAtB c env r.ambientIdx with
    | true =>
      simp [detect_flame, ambientRead, firstFlameIn, hf, flameAtB] at hf ⊢
      simp [hf]
    | false =>
      have hfd : decide (c.FLAME_DETECTION_THRESHOLD < env.ambient r.ambientIdx) = false := hf
      rw [firstFlameIn]
      rw [hf]
      simp only [detect_flame, ambientRead, hfd, if_false, Bool.false_eq_true]
      rw [ih]
      cases hrec : firstFlameIn c env (r.ambientIdx + 1) n with
      | none =>
        simp [hrec, List.replicate_succ, Nat.add_assoc, Nat.add_comm 1 n]
      | some k =>
        simp [hrec, List.replicate_succ]
        omega

/-- A found flame index lies below the scan bound. -/
theorem firstFlameIn_lt (c : Consts) (env : Env) :
    ∀ (n start k : Nat), firstFlameIn c env start n = some k → k < n := by
  intro n
  induction n with
  | zero => intro start k h; simp [firstFlameIn] at h
  | succ n ih =>
    intro start k h
    rw [firstFlameIn] at h
    by_cases hf : flameAtB c env start
    · simp [hf] at h; omega
    · simp [hf] at h
      obtain ⟨k', hk', hkk⟩ := h
      have := ih (start + 1) k' hk'
      omega

/-- A found flame index is the least reading above the threshold. -/
theorem firstFlameIn_some_spec (c : Consts) (env : Env) :
    ∀ (n start k : Nat), firstFlameIn c env start n = some k →
      flameAtB c env (start + k) = true ∧
      ∀ j < k, flameAtB c env (start + j) = false := by
  intro n
  induction n with
  | zero => intro start k h; simp [firstFlameIn] at h
  | succ n ih =>
    intro start k h
    rw [firstFlameIn] at h
    by_cases hf : flameAtB c env start
    · simp [hf] at h
      subst h
      exact ⟨by simpa using hf, by omega⟩
    · simp [hf] at h
      obtain ⟨k', hk', hkk⟩ := h
      obtain ⟨hhit, hmin⟩ := ih (start + 1) k' hk'
      subst hkk
      refine ⟨by simpa [Nat.add_assoc, Nat.add_comm 1 k'] using hhit, ?_⟩
      intro j hj
      cases j with
      | zero => simpa using hf
      | succ j' =>
        have := hmin j' (by omega)
        simpa [Nat.add_assoc, Nat.add_comm 1 j'] using this

/-- If no flame index is found, every scanned reading is below threshold. -/
theorem firstFlameIn_none_spec (c : Consts) (env : Env) :
    ∀ (n start : Nat), firstFlameIn c env start n = none →
      ∀ j < n, flameAtB c env (start + j) = false := by
  intro n
  induction n with
  | zero => intro start _ j hj; omega
  | succ n ih =>
    intro start h j hj
    rw [firstFlameIn] at h
    by_cases hf : flameAtB c env start
    · simp [hf] at h
    · simp [hf] at h
      cases j with
      | zero => simpa using hf
      | succ j' =>
        have := ih (start + 1) h j' (by omega)
        simpa [Nat.add_assoc, Nat.add_comm 1 j'] using this

/-- The scan outcome depends only on the readings it consumes. -/
theorem firstFlameIn_congr (c : Consts) (env env2 : Env) :
    ∀ (n start start2 : Nat),
      (∀ j < n, env2.ambient (start2 + j) = env.ambient (start + j)) →
      firstFlameIn c env2 start2 n = firstFlameIn c env start n := by
  intro n
  induction n with
  | zero => intro start start2 _; simp [firstFlameIn]
  | succ n ih =>
    intro start start2 hagree
    have h0 : env2.ambient start2 = env.ambient start := by
      have := hagree 0 (by omega)
      simpa using this
    rw [firstFlameIn, firstFlameIn, flameAtB, flameAtB, h0]
    have htail : (firstFlameIn c env2 (start2 + 1) n) = firstFlameIn c env (start + 1) n := by
      apply ih
      intro j hj
      have := hagree (j + 1) (by omega)
      simpa [Nat.add_assoc, Nat.add_comm 1 j] using this
    rw [htail]

/-- Claim C2: `initial_scan_for_flame` checks `detect_flame()` before each
turn, issues at most 8 turn commands of exactly 45° each, returns `true`
with no further turn at the first reading above the threshold (exactly `k`
turns when the flame first shows at the `k`-th check counting from zero, the
earlier checks all negative), returns `false` after all 8 increments fail,
and is restartable: a re-invocation seeing the same readings produces the
same commands and result. -/
theorem initial_scan_spec (c : Consts) (env : Env) (r : Robot) :
    (initial_scan_for_flame c env r =
      match firstFlameIn c env r.ambientIdx 8 with
      | some k =>
        ({ r with ambientIdx := r.ambientIdx + (k + 1) },
         List.replicate k (Command.turn 45), true)
      | none =>
        ({ r with ambientIdx := r.ambientIdx + 8 },
         List.replicate 8 (Command.turn 45), false)) ∧
    (initial_scan_for_flame c env r).2.1.length ≤ 8 ∧
    (∀ cmd ∈ (initial_scan_for_flame c env r).2.1, cmd = Command.turn 45) ∧
    (∀ k, firstFlameIn c env r.ambientIdx 8 = some k →
      flameAtB c env (r.ambientIdx + k) = true ∧
      (∀ j < k, flameAtB c env (r.ambientIdx + j) = false) ∧
      (initial_scan_for_flame c env r).2.1.length = k ∧
      (initial_scan_for_flame c env r).2.2 = true) ∧
    (firstFlameIn c env r.ambientIdx 8 = none →
      (∀ j < 8, flameAtB c env (r.ambientIdx + j) = false) ∧
      (initial_scan_for_flame c env r).2.1.length = 8 ∧
      (initial_scan_for_flame c env r).2.2 = false) ∧
    (∀ (env2 : Env) (r2 : Robot),
      (∀ j < 8, env2.ambient (r2.ambientIdx + j) = env.ambient (r.ambientIdx + j)) →
      (initial_scan_for_flame c env2 r2).2 = (initial_scan_for_flame c env r).2) := by
  have heq := scanLoop_eq c env 8 r
  refine ⟨heq, ?_, ?_, ?_, ?_, ?_⟩
  · rw [initial_scan_for_flame, heq]
    cases hff : firstFlameIn c env r.ambientIdx 8 with
    | none => simp
    | some k =>
      have := firstFlameIn_lt c env 8 r.ambientIdx k hff
      simp
      omega
  · rw [initial_scan_for_flame, heq]
    cases hff : firstFlameIn c env r.ambientIdx 8 with
    | none =>
      intro cmd hcmd
      simp at hcmd
      exact hcmd
    | some k =>
      intro cmd hcmd
      simp at hcmd
      exact hcmd.2
  · intro k hff
    obtain ⟨hhit, hmin⟩ := firstFlameIn_some_spec c env 8 r.ambientIdx k hff
    rw [initial_scan_for_flame, heq, hff]
    exact ⟨hhit, hmin, by simp, rfl⟩
  · intro hff
    refine ⟨firstFlameIn_none_spec c env 8 r.ambientIdx hff, ?_, ?_⟩ <;>
      rw [initial_scan_for_flame, heq, hff] <;> simp
  · intro env2 r2 hagree
    have hcongr : firstFlameIn c env2 r2.ambientIdx 8 = firstFlameIn c env r.ambientIdx 8 :=
      firstFlameIn_congr c env env2 8 r.ambientIdx r2.ambientIdx hagree
    rw [initial_scan_for_flame, initial_scan_for_flame, heq, scanLoop_eq c env2 8 r2, hcongr]
    cases firstFlameIn c env r.ambientIdx 8 <;> simp

/-- Claim C3: an `update` step from WANDER whose sensor sequence first shows
a flame at the 3rd of the 8 scan checks issues exactly 2 turn commands of
45° each, ends in FIRE_DETECTION, and issues no straight-drive (wander)
command. -/
theorem update_wander_flame_third (c : Consts) (env : Env) (fuel : Nat) (r : Robot)
    (h0 : flameAtB c env r.ambientIdx = false)
    (h1 : flameAtB c env (r.ambientIdx + 1) = false)
    (h2 : flameAtB c env (r.ambientIdx + 2) = true) :
    update c env fuel { r with current_state := RobotState.WANDER } =
      some ({ r with current_state := RobotState.FIRE_DETECTION,
                     ambientIdx := r.ambientIdx + 3 },
            [Command.turn 45, Command.turn 45]) ∧
    List.all [Command.turn 45, Command.turn 45]
      (fun cmd => !(isStraightCmd cmd)) = true := by
  refine ⟨?_, rfl⟩
  have step : ∀ (start n : Nat), flameAtB c env start = false →
      firstFlameIn c env start (n + 1) =
        (firstFlameIn c env (start + 1) n).map (fun j => j + 1) := by
    intro start n hf
    rw [firstFlameIn, hf]
    simp
  have s1 := step r.ambientIdx 7 h0
  have s2 := step (r.ambientIdx + 1) 6 h1
  have s3 : firstFlameIn c env (r.ambientIdx + 1 + 1) 6 = some 0 := by
    rw [show r.ambientIdx + 1 + 1 = r.ambientIdx + 2 by omega, firstFlameIn, h2]
    simp
  norm_num at s1 s2
  have hfst : firstFlameIn c env r.ambientIdx 8 = some 2 := by
    rw [s1, s2, s3]
    rfl
  simp [update, initial_scan_for_flame, scanLoop_eq, hfst, transition_to]

/-- The initial flame scan only moves the ambient-light cursor: the state is
untouched. -/
theorem initial_scan_preserves_state (c : Consts) (env : Env) (r : Robot) :
    (initial_scan_for_flame c env r).1.current_state = r.current_state := by
  rw [initial_scan_for_flame, scanLoop_eq]
  cases firstFlameIn c env r.ambientIdx 8 <;> simp

/-- `wall_following` never writes the state (it calls no `transition_to`). -/
theorem wall_following_preserves_state (c : Consts) (env : Env) (r : Robot) :
    (wall_following c env r).1.current_state = r.current_state := by
  cases ht : env.touched r.touchIdx <;>
  by_cases hw : env.distance r.distIdx < c.WALL_FOLLOW_MIN_DISTANCE <;>
  simp [wall_following, detect_obstacle, detect_wall_on_right, touchRead,
    distanceRead, ht, hw]

/-- Soundness of the transition table: any completed `update` step connects
states only along `allowedStep`. -/
theorem update_allowedStep (c : Consts) (env : Env) (fuel : Nat) (r r' : Robot)
    (cmds : List Command) (h : update c env fuel r = some (r', cmds)) :
    allowedStep r.current_state r'.current_state = true := by
  rcases hs : r.current_state with _ | _ | _ | _ | _
  · -- WANDER
    rw [update, hs] at h
    simp only [if_true, reduceIte] at h
    rcases hscan : initial_scan_for_flame c env r with ⟨r1, cmds1, found⟩
    have hr1 : r1.current_state = RobotState.WANDER := by
      have := initial_scan_preserves_state c env r
      rw [hscan] at this
      rw [this, hs]
    rw [hscan] at h
    cases found with
    | true =>
      simp [transition_to] at h
      rw [← h.1]
      rfl
    | false =>
      simp at h
      cases ht : env.touched r1.touchIdx <;>
        simp [wander, detect_obstacle, touchRead, transition_to, ht] at h <;>
        rw [← h.1] <;> simp [hr1, allowedStep]
  · -- WALL_FOLLOWING
    rw [update, hs] at h
    simp only [reduceIte] at h
    rcases hwf : wall_following c env r with ⟨r1, cmds1⟩
    have hr1 : r1.current_state = RobotState.WALL_FOLLOWING := by
      have := wall_following_preserves_state c env r
      rw [hwf] at this
      rw [this, hs]
    rcases hg : detect_goal c env r1 with ⟨r2, cmds2, g⟩
    have hr2 : r2.current_state = r1.current_state := by
      have := congrArg (fun p => p.1.current_state) hg
      exact this.symm
    rw [hwf, hg] at h
    cases g with
    | true =>
      simp [transition_to] at h
      rw [← h.1]
      rfl
    | false =>
      simp at h
      rw [← h.1]
      simp [hr2, hr1, allowedStep]
  · -- FIRE_DETECTION
    rw [update, hs] at h
    simp only [reduceIte] at h
    cases happ : approach_flame c env fuel r with
    | none => rw [happ] at h; simp at h
    | some p =>
      rcases p with ⟨r1, cmds1⟩
      rw [happ] at h
      simp [transition_to] at h
      rw [← h.1]
      rfl
  · -- EXTINGUISH
    rw [update, hs] at h
    simp [transition_to, extinguish] at h
    rw [← h.1]
    rfl
  · -- COMPLETE
    rw [update, hs] at h
    simp at h
    rw [← h.1, hs]
    rfl

/-- Claim C7 (counterexample): the claimed transition from WALL_FOLLOWING
back to WANDER never occurs: no configuration, sensor sequence, fuel, or
robot gives a completed `update` step from WALL_FOLLOWING ending in
WANDER. -/
theorem no_wall_following_to_wander :
    ¬ ∃ (c : Consts) (env : Env) (fuel : Nat) (r r' : Robot) (cmds : List Command),
        r.current_state = RobotState.WALL_FOLLOWING ∧
        update c env fuel r = some (r', cmds) ∧
        r'.current_state = RobotState.WANDER := by
  rintro ⟨c, env, fuel, r, r', cmds, hs, h, hw⟩
  have hall := update_allowedStep c env fuel r r' cmds h
  rw [hs, hw] at hall
  simp [allowedStep] at hall

/-- Claim C7 (amended): every completed `update` step respects the
transition table encoded by `allowedStep` — WANDER can stay, enter
WALL_FOLLOWING (an entry into obstacle negotiation that does occur, as the
existential conjunct shows) or enter FIRE_DETECTION; WALL_FOLLOWING can only
re-enter itself or enter FIRE_DETECTION (never WANDER); FIRE_DETECTION goes
to EXTINGUISH; EXTINGUISH loops back to WANDER; COMPLETE stays put. -/
theorem update_step_relation (c : Consts) (env : Env) (fuel : Nat) (r r' : Robot)
    (cmds : List Command) (h : update c env fuel r = some (r', cmds)) :
    allowedStep r.current_state r'.current_state = true ∧
    (∃ (c2 : Consts) (env2 : Env) (fuel2 : Nat) (r2 r2' : Robot) (cmds2 : List Command),
      r2.current_state = RobotState.WANDER ∧
      update c2 env2 fuel2 r2 = some (r2', cmds2) ∧
      r2'.current_state = RobotState.WALL_FOLLOWING) := by
  refine ⟨update_allowedStep c env fuel r r' cmds h, ?_⟩
  exact ⟨constsW, envTouch, 0, initRobot,
    { current_state := RobotState.WALL_FOLLOWING, touchIdx := 1, distIdx := 0,
      ambientIdx := 8, colorIdx := 0 },
    [Command.turn 45, Command.turn 45, Command.turn 45, Command.turn 45,
     Command.turn 45, Command.turn 45, Command.turn 45, Command.turn 45,
     Command.stop, Command.straight (-50), Command.turn (-90)],
    rfl, by decide, rfl⟩

/-- Only the COMPLETE self-loop of the transition table ends in COMPLETE. -/
theorem allowedStep_no_complete :
    ∀ s s' : RobotState, allowedStep s s' = true →
      s ≠ RobotState.COMPLETE → s' ≠ RobotState.COMPLETE := by
  intro s s'
  cases s <;> cases s' <;> simp [allowedStep]

/-- Runs that start outside COMPLETE stay outside COMPLETE. -/
theorem runSteps_preserves (c : Consts) (env : Env) :
    ∀ (fuels : List Nat) (r r' : Robot), r.current_state ≠ RobotState.COMPLETE →
      runSteps c env fuels r = some r' → r'.current_state ≠ RobotState.COMPLETE := by
  intro fuels
  induction fuels with
  | nil =>
    intro r r' hr h
    rw [runSteps] at h
    cases h
    exact hr
  | cons fuel fuels ih =>
    intro r r' hr h
    rw [runSteps] at h
    cases hu : update c env fuel r with
    | none => rw [hu] at h; cases h
    | some p =>
      rcases p with ⟨r1, cmds⟩
      rw [hu] at h
      have hall := update_allowedStep c env fuel r r1 cmds hu
      exact ih r1 r' (allowedStep_no_complete _ _ hall hr) h

/-- Claim C9: starting from the initial WANDER state, the state at the end
of every completed sequence of `update` steps is one of WANDER,
WALL_FOLLOWING, FIRE_DETECTION, EXTINGUISH — never COMPLETE: both dispatch
branches that run `extinguish()` immediately overwrite the COMPLETE value it
assigns, via `transition_to`. -/
theorem runSteps_never_complete (c : Consts) (env : Env) (fuels : List Nat) (r' : Robot)
    (h : runSteps c env fuels initRobot = some r') :
    (r'.current_state = RobotState.WANDER ∨
     r'.current_state = RobotState.WALL_FOLLOWING ∨
     r'.current_state = RobotState.FIRE_DETECTION ∨
     r'.current_state = RobotState.EXTINGUISH) ∧
    r'.current_state ≠ RobotState.COMPLETE := by
  have hnc : r'.current_state ≠ RobotState.COMPLETE :=
    runSteps_preserves c env fuels initRobot r' (by simp [initRobot]) h
  refine ⟨?_, hnc⟩
  cases hs : r'.current_state <;> simp_all

/-- Witness for C3: with `envFlame3` (flame only at the third reading), a
WANDER step issues exactly two 45° turns and ends in FIRE_DETECTION. -/
theorem update_wander_flame_third_witness :
    update constsW envFlame3 0 { initRobot with current_state := RobotState.WANDER } =
      some ({ initRobot with current_state := RobotState.FIRE_DETECTION,
                             ambientIdx := initRobot.ambientIdx + 3 },
            [Command.turn 45, Command.turn 45]) ∧
    List.all [Command.turn 45, Command.turn 45]
      (fun cmd => !(isStraightCmd cmd)) = true :=
  update_wander_flame_third constsW envFlame3 0 initRobot rfl rfl rfl

/-- Witness for C5: at distance reading 40 with threshold 100 and gain 2 the
issued turn is `(100 - 40) * 2 = 120`, and readings 10 < 20 give
adjustments 180 > 160. -/
theorem wall_following_proportional_witness :
    (wall_following constsW envWall initRobot).2 =
      [Command.turn (angle_adjustment constsW (envWall.distance (initRobot.distIdx + 1))),
       Command.straight constsW.WALL_FOLLOW_STEP] ∧
    angle_adjustment constsW (envWall.distance (initRobot.distIdx + 1)) =
      (constsW.WALL_FOLLOW_MIN_DISTANCE - envWall.distance (initRobot.distIdx + 1)) *
        constsW.WALL_FOLLOW_ADJUST_ANGLE ∧
    angle_adjustment constsW 20 < angle_adjustment constsW 10 :=
  wall_following_proportional constsW envWall initRobot 10 20 rfl (by decide)
    (by decide) (by decide) (by decide) (by decide)

/-- Witness for C6: on the goal tile, `approach_flame` returns after exactly
the fan and light actions of `extinguish()`. -/
theorem approach_flame_goal_first_witness :
    approach_flame constsW envGoal 0 initRobot =
      some ({ initRobot with colorIdx := initRobot.colorIdx + 1,
                             current_state := RobotState.COMPLETE },
            [Command.fanRun constsW.FAN_SPEED constsW.FAN_RUN_TIME,
             Command.lightOn Color.green]) ∧
    List.all [Command.fanRun constsW.FAN_SPEED constsW.FAN_RUN_TIME,
              Command.lightOn Color.green]
      (fun cmd => !(isStraightCmd cmd || isTurnCmd cmd)) = true :=
  approach_flame_goal_first constsW envGoal 0 initRobot rfl

/-- Witness for C7: the COMPLETE self-loop is a concrete completed step, and
the WANDER-to-WALL_FOLLOWING entry exists. -/
theorem update_step_relation_witness :
    allowedStep robotComplete.current_state robotComplete.current_state = true ∧
    (∃ (c2 : Consts) (env2 : Env) (fuel2 : Nat) (r2 r2' : Robot) (cmds2 : List Command),
      r2.current_state = RobotState.WANDER ∧
      update c2 env2 fuel2 r2 = some (r2', cmds2) ∧
      r2'.current_state = RobotState.WALL_FOLLOWING) :=
  update_step_relation constsW envQuiet 0 robotComplete robotComplete [] rfl

/-- Witness for C9: two quiet WANDER steps from the initial robot end in
WANDER, not COMPLETE. -/
theorem runSteps_never_complete_witness :
    (({ current_state := RobotState.WANDER, touchIdx := 2, distIdx := 0,
        ambientIdx := 16, colorIdx := 0 } : Robot).current_state = RobotState.WANDER ∨
     ({ current_state := RobotState.WANDER, touchIdx := 2, distIdx := 0,
        ambientIdx := 16, colorIdx := 0 } : Robot).current_state = RobotState.WALL_FOLLOWING ∨
     ({ current_state := RobotState.WANDER, touchIdx := 2, distIdx := 0,
        ambientIdx := 16, colorIdx := 0 } : Robot).current_state = RobotState.FIRE_DETECTION ∨
     ({ current_state := RobotState.WANDER, touchIdx := 2, distIdx := 0,
        ambientIdx := 16, colorIdx := 0 } : Robot).current_state = RobotState.EXTINGUISH) ∧
    ({ current_state := RobotState.WANDER, touchIdx := 2, distIdx := 0,
       ambientIdx := 16, colorIdx := 0 } : Robot).current_state ≠ RobotState.COMPLETE :=
  runSteps_never_complete constsW envQuiet [0, 0]
    { current_state := RobotState.WANDER, touchIdx := 2, distIdx := 0,
      ambientIdx := 16, colorIdx := 0 } rfl

end FireRobot
